import Mathlib

/-!
Shallow embedding of the car-auction analytics engine
(`src/scripts/hotness_and_price_delta.py`, `src/scripts/upcoming_auctions_views.py`,
`src/scripts/lots_auctions_view.py`).

Numeric SQL values are modelled as `ℚ`; nullable SQL values as `Option ℚ` /
`Option String`; tables as Lean lists.  SQL three-valued logic at join and
filter sites is collapsed to "the condition evaluates to TRUE", which is what
`WHERE` / `JOIN ... ON` act on.
-/

namespace CarAuction

/-! ### SQL primitives -/

/-- SQL `COALESCE(x, d)` for a nullable numeric `x` and non-null default. -/
def sqlCoalesce (x : Option ℚ) (d : ℚ) : ℚ := x.getD d

/-- SQL `NULLIF(x, y)`. -/
def sqlNullif (x y : ℚ) : Option ℚ := if x = y then none else some x

/-- Postgres `ROUND(x)::int`.  All arguments in this development are
nonnegative, where rounding half away from zero coincides with half-up. -/
def pgRound (x : ℚ) : ℤ := ⌊x + 1 / 2⌋

/-- The ordering used by `CUME_DIST() OVER (ORDER BY v)` to decide whether a
row precedes or is a peer of the current row: default ascending order places
NULLs last, and NULL rows are peers of each other. -/
def pgLe : Option ℚ → Option ℚ → Bool
  | _, none => true
  | none, some _ => false
  | some b, some a => decide (b ≤ a)

/-- Postgres `CUME_DIST() OVER (ORDER BY v)` evaluated for value `x` within the
window whose rows carry the values `xs`: the number of rows preceding or peers
of the current row, divided by the window size. -/
def cumeDist (xs : List (Option ℚ)) (x : Option ℚ) : ℚ :=
  ((xs.countP fun y => pgLe y x : ℕ) : ℚ) / ((xs.length : ℕ) : ℚ)

/-- `CUME_DIST` as it appears under `COALESCE` in the source: a window function
application, nullable as an SQL expression, though it never evaluates to NULL. -/
def cumeDistOver (xs : List (Option ℚ)) (x : Option ℚ) : Option ℚ :=
  some (cumeDist xs x)

/-- Insertion into a sorted list (ascending); used to model SQL ordered-set
aggregates, which sort their non-null inputs. -/
def insertSorted (x : ℚ) : List ℚ → List ℚ
  | [] => [x]
  | y :: ys => if x ≤ y then x :: y :: ys else y :: insertSorted x ys

/-- Ascending sort of the aggregate input. -/
def sortQ (xs : List ℚ) : List ℚ := xs.foldr insertSorted []

/-- Postgres `PERCENTILE_CONT(0.5) WITHIN GROUP (ORDER BY v)` over the non-null
inputs `xs`: NULL on empty input, the middle element for odd length, the mean
of the two middle elements for even length. -/
def percentileCont50 (xs : List ℚ) : Option ℚ :=
  let s := sortQ xs
  let n := s.length
  if n = 0 then none
  else if n % 2 = 1 then some (s.getD (n / 2) 0)
  else some ((s.getD (n / 2 - 1) 0 + s.getD (n / 2) 0) / 2)

/-- Postgres `PERCENTILE_DISC(0.5) WITHIN GROUP (ORDER BY v)` over the non-null
inputs `xs`: NULL on empty input, otherwise the first input value whose
cumulative proportion reaches 0.5 (the lower middle element). -/
def percentileDisc50 (xs : List ℚ) : Option ℚ :=
  let s := sortQ xs
  if s.length = 0 then none else some (s.getD ((s.length - 1) / 2) 0)

/-! ### HOTNESS_SQL: features CTE -/

/-- The `rate_ratio` CASE of the `features` CTE:
`CASE WHEN COALESCE(h12.c12,0) > 0 THEN ((COALESCE(h30.c30,0) / 30.0) / (h12.c12 / 365.0)) ELSE NULL END`. -/
def rateRatio (c30 c12 : ℚ) : Option ℚ :=
  if 0 < c12 then some ((c30 / 30) / (c12 / 365)) else none

/-- A row of the `features` CTE: one segment `(make_norm, model_norm, year)`
with its trailing-30-day count, trailing-365-day count, current inventory
count, month-vs-year rate ratio and median bid velocity. -/
structure Features where
  make_norm : String
  model_norm : String
  year : Int
  c30 : ℚ
  c12 : ℚ
  cnow : ℚ
  rate_ratio : Option ℚ
  vel_median : Option ℚ
deriving Repr, DecidableEq

/-! ### HOTNESS_SQL: vel_lot / vel_seg CTEs -/

/-- A row of `prices_timeseries` restricted to the columns the velocity query
reads; `ts_utc` is seconds since epoch. -/
structure Tick where
  ts_utc : ℚ
  prebid : ℚ
deriving Repr, DecidableEq

/-- The `vel_lot` CTE for one lot group:
`(MAX(prebid) - MIN(prebid)) / NULLIF(EXTRACT(EPOCH FROM (MAX(ts_utc) - MIN(ts_utc))) / 3600.0, 0)`.
SQL aggregates over an empty group do not arise (GROUP BY emits no row), and a
NULL divisor propagates, yielding an undefined velocity. -/
def velPerH (ticks : List Tick) : Option ℚ :=
  match (ticks.map Tick.prebid).max?, (ticks.map Tick.prebid).min?,
        (ticks.map Tick.ts_utc).max?, (ticks.map Tick.ts_utc).min? with
  | some maxP, some minP, some maxT, some minT =>
      (sqlNullif ((maxT - minT) / 3600) 0).map fun d => (maxP - minP) / d
  | _, _, _, _ => none

/-- The `vel_seg` CTE for one segment: `PERCENTILE_CONT(0.5)` over the per-lot
velocities of the segment; the ordered-set aggregate ignores NULL inputs and
returns NULL when no input remains. -/
def velMedian (vels : List (Option ℚ)) : Option ℚ :=
  percentileCont50 (vels.filterMap id)

/-! ### HOTNESS_SQL: scored and hot CTEs -/

/-- A row of the `scored` CTE: the features row together with the three
window-function columns. -/
structure Scored extends Features where
  pct_ratio : ℚ
  pct_activity : ℚ
  pct_velocity : ℚ
deriving Repr, DecidableEq

/-- The `scored` CTE evaluated at one features row `f` of the pass `fs`:
`COALESCE(CUME_DIST() OVER (ORDER BY rate_ratio), 0.5)` and likewise for
`cnow` and `vel_median`. -/
def scoreRow (fs : List Features) (f : Features) : Scored :=
  { f with
    pct_ratio := sqlCoalesce (cumeDistOver (fs.map Features.rate_ratio) f.rate_ratio) (1 / 2)
    pct_activity := sqlCoalesce
      (cumeDistOver (fs.map fun g => some g.cnow) (some f.cnow)) (1 / 2)
    pct_velocity := sqlCoalesce (cumeDistOver (fs.map Features.vel_median) f.vel_median) (1 / 2) }

/-- The `scored` CTE over a whole pass. -/
def scoredOf (fs : List Features) : List Scored :=
  fs.map (scoreRow fs)

/-- The composite of the `hot` CTE:
`ROUND(100.0 * (0.5 * pct_ratio + 0.4 * pct_activity + 0.1 * pct_velocity))::int`. -/
def hotnessPct (s : Scored) : ℤ :=
  pgRound (100 * (5 / 10 * s.pct_ratio + 4 / 10 * s.pct_activity + 1 / 10 * s.pct_velocity))

/-- A row of the `hot` CTE; `components` models the `jsonb_build_object`
diagnostic payload, which carries exactly the feature values and ranks. -/
structure HotRow where
  make_norm : String
  model_norm : String
  year : Int
  hotness_pct : ℤ
  components : Scored
deriving Repr, DecidableEq

/-- One row of the `hot` CTE from its `scored` row. -/
def hotRowOf (s : Scored) : HotRow :=
  { make_norm := s.make_norm, model_norm := s.model_norm, year := s.year,
    hotness_pct := hotnessPct s, components := s }

/-- The `hot` CTE over a whole pass (the result set of `HOTNESS_SQL`). -/
def hotOf (fs : List Features) : List HotRow :=
  (scoredOf fs).map hotRowOf

/-! ### PRICE_UPDATE_TMPL: target / comps_a / comps_b / pick / upd CTEs -/

/-- A row of the `target` CTE: the columns `PRICE_UPDATE_TMPL` reads from a
snapshot table. -/
structure TargetLot where
  lot_id : String
  broker_id : Int
  make_norm : Option String
  model_norm : Option String
  year : Option Int
  title_norm : Option String
  odometer_miles : Option ℚ
  latest_prebid : Option ℚ
deriving Repr, DecidableEq

/-- A row of `sales_history` restricted to the columns the comp queries read.
`make` and `model` are the raw strings; the join normalizes them. -/
structure SaleRecord where
  make : Option String
  model : Option String
  year : Option Int
  title_norm : Option String
  odometer_miles : Option ℚ
  sale_price : Option ℚ
deriving Repr, DecidableEq

/-- SQL `lower(unaccent(x)) = col` as a join condition: TRUE only when both
sides are non-null and equal; `norm` stands for `lower ∘ unaccent`. -/
def normEq (norm : String → String) (x : Option String) (col : Option String) : Bool :=
  match x, col with
  | some a, some b => norm a == b
  | _, _ => false

/-- SQL `ABS(sy - ty) <= k` as a join condition (NULL on either side is not TRUE). -/
def yearWithin (sy ty : Option Int) (k : Nat) : Bool :=
  match sy, ty with
  | some a, some b => (a - b).natAbs ≤ k
  | _, _ => false

/-- The title filter of `comps_a`:
`t.title_norm IS NULL OR s.title_norm IS NULL OR s.title_norm = t.title_norm`. -/
def titleOk (st tt : Option String) : Bool :=
  tt.isNone || st.isNone || st == tt

/-- The odometer window filter:
`t.odometer_miles IS NULL OR s.odometer_miles IS NULL OR (s.odometer_miles BETWEEN t.odometer_miles*lo AND t.odometer_miles*hi)`. -/
def odoOk (sOdo tOdo : Option ℚ) (lo hi : ℚ) : Bool :=
  tOdo.isNone || sOdo.isNone ||
    (match sOdo, tOdo with
     | some a, some b => decide (b * lo ≤ a) && decide (a ≤ b * hi)
     | _, _ => false)

/-- The tier-A (tight) join condition of `comps_a`: normalized make and model
equal, year within ±1, title categories compatible, sale price present,
odometer within ×0.8–×1.2. -/
def tierAMatch (norm : String → String) (t : TargetLot) (s : SaleRecord) : Bool :=
  normEq norm s.make t.make_norm && normEq norm s.model t.model_norm &&
  yearWithin s.year t.year 1 && titleOk s.title_norm t.title_norm &&
  s.sale_price.isSome && odoOk s.odometer_miles t.odometer_miles (8 / 10) (12 / 10)

/-- The tier-B (wide) join condition of `comps_b`: year within ±2, no title
filter, odometer within ×0.6–×1.4. -/
def tierBMatch (norm : String → String) (t : TargetLot) (s : SaleRecord) : Bool :=
  normEq norm s.make t.make_norm && normEq norm s.model t.model_norm &&
  yearWithin s.year t.year 2 &&
  s.sale_price.isSome && odoOk s.odometer_miles t.odometer_miles (6 / 10) (14 / 10)

/-- A grouped row of `comps_a` / `comps_b`:
`PERCENTILE_DISC(0.5) WITHIN GROUP (ORDER BY s.sale_price)` and `COUNT(*)`. -/
structure CompsRow where
  fair_value : Option ℚ
  comp_count : Nat
deriving Repr, DecidableEq

/-- The grouped comps row for one lot: `GROUP BY` emits no row when no sale
matches, else the discrete median of the matched sale prices and the match
count. -/
def compsRow (ms : List SaleRecord) : Option CompsRow :=
  if ms.isEmpty then none
  else some { fair_value := percentileDisc50 (ms.filterMap SaleRecord.sale_price),
              comp_count := ms.length }

/-- The `comps_a` CTE evaluated for one target lot. -/
def compsA (norm : String → String) (hist : List SaleRecord) (t : TargetLot) :
    Option CompsRow :=
  compsRow (hist.filter (tierAMatch norm t))

/-- The `comps_b` CTE evaluated for one target lot. -/
def compsB (norm : String → String) (hist : List SaleRecord) (t : TargetLot) :
    Option CompsRow :=
  compsRow (hist.filter (tierBMatch norm t))

/-- The `pick` CTE: after the two left joins,
`COALESCE(a.fair_value, b.fair_value)` and
`COALESCE(a.comp_count, b.comp_count, 0)`. -/
def pickRow (a b : Option CompsRow) : Option ℚ × Nat :=
  ((a.bind CompsRow.fair_value <|> b.bind CompsRow.fair_value),
   (a.map CompsRow.comp_count <|> b.map CompsRow.comp_count).getD 0)

/-- The `pick` CTE evaluated for one target lot against the sales history. -/
def pickLot (norm : String → String) (hist : List SaleRecord) (t : TargetLot) :
    Option ℚ × Nat :=
  pickRow (compsA norm hist t) (compsB norm hist t)

/-- The CASE of the `upd` CTE:
`CASE WHEN p.fair_value IS NOT NULL AND p.fair_value > 0 THEN 100.0 * (t.latest_prebid - p.fair_value) / p.fair_value ELSE NULL END`;
a NULL `latest_prebid` propagates through the arithmetic. -/
def priceDeltaPct (fv bid : Option ℚ) : Option ℚ :=
  match fv with
  | some v => if 0 < v then bid.map (fun b => 100 * (b - v) / v) else none
  | none => none

/-- A row of the `upd` CTE. -/
structure UpdRow where
  fair_value : Option ℚ
  comp_count : Nat
  price_delta_pct : Option ℚ
deriving Repr, DecidableEq

/-- The `upd` CTE evaluated for one target lot. -/
def updFor (norm : String → String) (hist : List SaleRecord) (t : TargetLot) : UpdRow :=
  let p := pickLot norm hist t
  { fair_value := p.1, comp_count := p.2,
    price_delta_pct := priceDeltaPct p.1 t.latest_prebid }

/-! ### View membership predicates

From `refresh_next_24h` / `refresh_next_2h` in
`src/scripts/upcoming_auctions_views.py` and `SELECT_LIVE_CANDIDATES` in
`src/scripts/lots_auctions_view.py`.  Instants are rationals measured in
hours, so the intervals are 24 and 2. -/

/-- `auction_datetime_utc BETWEEN now() AND (now() + interval '24 hours')`. -/
def inNext24h (now dt : ℚ) : Bool :=
  decide (now ≤ dt) && decide (dt ≤ now + 24)

/-- `auction_datetime_utc BETWEEN now() AND (now() + interval '2 hours')`. -/
def inNext2h (now dt : ℚ) : Bool :=
  decide (now ≤ dt) && decide (dt ≤ now + 2)

/-- `l.auction_datetime_utc <= now() AND l.status NOT IN ('SOLD','CLOSED')`. -/
def inLive (now dt : ℚ) (status : String) : Bool :=
  decide (dt ≤ now) && !(status == "SOLD" || status == "CLOSED")

/-! ### run_loop scheduling and failure propagation -/

/-- The `SNAP_TABLES` tuple of `hotness_and_price_delta.py`. -/
def SNAP_TABLES : List String := ["tbl_next_24h", "tbl_next_2h", "tbl_live"]

/-- Tables written by one call of `update_hotness`: a `for t in SNAP_TABLES`
loop, independent of the tick counter. -/
def hotnessUpdateTables : List String := SNAP_TABLES

/-- Tables written by one call of `update_price_delta`: likewise all of
`SNAP_TABLES`. -/
def priceUpdateTables : List String := SNAP_TABLES

/-- The tables written during one iteration of `run_loop`:
the branch `counter % 1 == 0` calls `update_hotness()` and
`update_price_delta()`, and the branch `counter % 4 == 0` calls both again. -/
def tickUpdatedTables (counter : Nat) : List String :=
  (if counter % 1 = 0 then hotnessUpdateTables ++ priceUpdateTables else []) ++
  (if counter % 4 = 0 then hotnessUpdateTables ++ priceUpdateTables else [])

/-- Executes table updates in order with exception semantics: `failsOn t` means
the SQL statement for table `t` raises.  Returns the tables updated before the
first failure and whether the sequence completed (there is no try/except in
the source, so the first exception aborts the rest). -/
def runSeq (failsOn : String → Bool) : List String → List String × Bool
  | [] => ([], true)
  | t :: ts =>
      if failsOn t then ([], false)
      else
        let r := runSeq failsOn ts
        (t :: r.1, r.2)

/-- Sequences two update groups, propagating an exception from the first past
the second. -/
def seqAbort (a : List String × Bool) (b : Unit → List String × Bool) :
    List String × Bool :=
  if a.2 then
    let r := b ()
    (a.1 ++ r.1, r.2)
  else a

/-- One `update_hotness(); update_price_delta()` pair with exception
semantics. -/
def passPair (failsOn : String → Bool) : List String × Bool :=
  seqAbort (runSeq failsOn hotnessUpdateTables) fun _ => runSeq failsOn priceUpdateTables

/-- One iteration of `run_loop`'s `while` body at the given counter value,
with exception semantics: the `counter % 1 == 0` branch then the
`counter % 4 == 0` branch, an exception in either aborting the remainder. -/
def tickBody (failsOn : String → Bool) (counter : Nat) : List String × Bool :=
  seqAbort (if counter % 1 = 0 then passPair failsOn else ([], true)) fun _ =>
    if counter % 4 = 0 then passPair failsOn else ([], true)

/-- `run_loop` for `k` ticks starting after counter value `c`: the `while True`
has no exception handler, so the first failing tick terminates the loop; the
result collects each completed tick's updated tables and whether the loop
survived all `k` ticks. -/
def runTicks (failsOn : String → Bool) : Nat → Nat → List (List String) × Bool
  | _, 0 => ([], true)
  | c, k + 1 =>
      let r := tickBody failsOn (c + 1)
      if r.2 then
        let rest := runTicks failsOn (c + 1) k
        (r.1 :: rest.1, rest.2)
      else ([r.1], false)

/-! ### Snapshot rows and the two UPDATE statements -/

/-- A snapshot-table row restricted to the columns the two analytics UPDATEs
read or write, plus the vehicle-descriptor columns they must leave alone. -/
structure SnapRow where
  lot_id : String
  broker_id : Int
  make_norm : Option String
  model_norm : Option String
  year : Option Int
  title_norm : Option String
  odometer_miles : Option ℚ
  latest_prebid : Option ℚ
  fair_value : Option ℚ
  comp_count : Option ℤ
  price_delta_pct : Option ℚ
  price_last_updated : Option ℚ
  hotness_pct : Option ℤ
  hotness_last_updated : Option ℚ
  hotness_components : Option Scored
deriving Repr, DecidableEq

/-- The WHERE of the hotness UPDATE:
`dst.make_norm = h.make_norm AND dst.model_norm = h.model_norm AND dst.year = h.year`
(NULL on the row side is not TRUE). -/
def segKeyMatches (h : HotRow) (r : SnapRow) : Bool :=
  r.make_norm == some h.make_norm && r.model_norm == some h.model_norm &&
  r.year == some h.year

/-- The `UPDATE {t} dst SET hotness_pct = ..., hotness_last_updated = now(),
hotness_components = ... FROM tmp_hotness h WHERE ...` of `update_hotness`,
applied to one row: rows with a matching segment in `tmp_hotness` get the new
hotness columns, other rows are untouched. -/
def applyHotnessUpdate (tmp : List HotRow) (nowT : ℚ) (r : SnapRow) : SnapRow :=
  match tmp.find? (fun h => segKeyMatches h r) with
  | some h =>
      { r with hotness_pct := some h.hotness_pct,
               hotness_last_updated := some nowT,
               hotness_components := some h.components }
  | none => r

/-- The final UPDATE of `PRICE_UPDATE_TMPL` applied to one row joined with its
`upd` row: sets `fair_value`, `comp_count`, `price_delta_pct`,
`price_last_updated`. -/
def applyPriceUpdate (u : UpdRow) (nowT : ℚ) (r : SnapRow) : SnapRow :=
  { r with fair_value := u.fair_value,
           comp_count := some (u.comp_count : ℤ),
           price_delta_pct := u.price_delta_pct,
           price_last_updated := some nowT }

/-! ### Concrete fixtures for the closed evaluations -/

/-- A segment with no yearly baseline and no velocity data: its `rate_ratio`
and `vel_median` are undefined. -/
def segUndef : Features :=
  { make_norm := "ford", model_norm := "focus", year := 2015,
    c30 := 0, c12 := 0, cnow := 1,
    rate_ratio := rateRatio 0 0, vel_median := none }

/-- A segment with all three features defined (the spec's (toyota, camry, 2018)
scenario numbers: c30 = 6, c12 = 24). -/
def segDef : Features :=
  { make_norm := "toyota", model_norm := "camry", year := 2018,
    c30 := 6, c12 := 24, cnow := 2,
    rate_ratio := rateRatio 6 24, vel_median := some 5 }

/-- A two-segment scoring pass. -/
def passTwo : List Features := [segUndef, segDef]

/-- The identity normalization, standing in for `lower ∘ unaccent` on inputs
that are already normalized. -/
def normId : String → String := fun s => s

/-- A target lot (the spec's comp-matching scenario: odometer 50000,
year 2019, title CLEAN, latest prebid 13200). -/
def lotW : TargetLot :=
  { lot_id := "L1", broker_id := 1, make_norm := some "toyota",
    model_norm := some "camry", year := some 2019, title_norm := some "CLEAN",
    odometer_miles := some 50000, latest_prebid := some 13200 }

/-- A sale matching `lotW` under tier A (year within 1, title equal,
odometer within the tight window). -/
def saleTight : SaleRecord :=
  { make := some "toyota", model := some "camry", year := some 2020,
    title_norm := some "CLEAN", odometer_miles := some 55000,
    sale_price := some 12000 }

/-- A sale matching `lotW` only under tier B (year off by 2). -/
def saleWide : SaleRecord :=
  { make := some "toyota", model := some "camry", year := some 2021,
    title_norm := some "SAL", odometer_miles := some 68000,
    sale_price := some 9000 }

/-- A two-row sales history. -/
def histW : List SaleRecord := [saleTight, saleWide]

/-! ## Helper lemmas -/

theorem cumeDist_nonneg (xs : List (Option ℚ)) (x : Option ℚ) :
    0 ≤ cumeDist xs x := by
  unfold cumeDist
  positivity

theorem cumeDist_le_one (xs : List (Option ℚ)) (x : Option ℚ) :
    cumeDist xs x ≤ 1 := by
  unfold cumeDist
  apply div_le_one_of_le₀
  · exact_mod_cast xs.countP_le_length _
  · positivity

theorem hotnessPct_range (s : Scored)
    (h1 : 0 ≤ s.pct_ratio) (h2 : s.pct_ratio ≤ 1)
    (h3 : 0 ≤ s.pct_activity) (h4 : s.pct_activity ≤ 1)
    (h5 : 0 ≤ s.pct_velocity) (h6 : s.pct_velocity ≤ 1) :
    0 ≤ hotnessPct s ∧ hotnessPct s ≤ 100 := by
  unfold hotnessPct pgRound
  constructor
  · exact Int.le_floor.mpr (by push_cast; linarith)
  · have hlt :
        ⌊100 * (5 / 10 * s.pct_ratio + 4 / 10 * s.pct_activity +
          1 / 10 * s.pct_velocity) + 1 / 2⌋ < 101 :=
      Int.floor_lt.mpr (by push_cast; linarith)
    omega

/-! ## Claim theorems -/

/-- C1: for every segment scored in one pass, the composite satisfies
`hotness_pct = round(100 * (0.5 * pct_ratio + 0.4 * pct_activity + 0.1 * pct_velocity))`
with the fixed weights 0.5, 0.4, 0.1, and `hotness_pct` is an integer in
`[0, 100]`. -/
theorem hotness_composite_formula_and_range (fs : List Features) (h : HotRow)
    (hmem : h ∈ hotOf fs) :
    h.hotness_pct =
      pgRound (100 * (1 / 2 * h.components.pct_ratio + 2 / 5 * h.components.pct_activity +
        1 / 10 * h.components.pct_velocity)) ∧
    0 ≤ h.hotness_pct ∧ h.hotness_pct ≤ 100 := by
  obtain ⟨s, hs, rfl⟩ := List.mem_map.mp hmem
  obtain ⟨f, hf, rfl⟩ := List.mem_map.mp hs
  have hform : hotnessPct (scoreRow fs f) =
      pgRound (100 * (1 / 2 * (scoreRow fs f).pct_ratio +
        2 / 5 * (scoreRow fs f).pct_activity +
        1 / 10 * (scoreRow fs f).pct_velocity)) := by
    unfold hotnessPct
    congr 1
    ring
  refine ⟨hform, ?_⟩
  exact hotnessPct_range (scoreRow fs f)
    (cumeDist_nonneg _ _) (cumeDist_le_one _ _)
    (cumeDist_nonneg _ _) (cumeDist_le_one _ _)
    (cumeDist_nonneg _ _) (cumeDist_le_one _ _)

/-- Witness for C1 at a concrete two-segment pass. -/
theorem hotness_composite_formula_and_range_witness :
    hotRowOf (scoreRow passTwo segUndef) ∈ hotOf passTwo ∧
    (0 ≤ (hotRowOf (scoreRow passTwo segUndef)).hotness_pct ∧
      (hotRowOf (scoreRow passTwo segUndef)).hotness_pct ≤ 100) :=
  ⟨by simp [hotOf, scoredOf, passTwo],
   (hotness_composite_formula_and_range passTwo (hotRowOf (scoreRow passTwo segUndef))
     (by simp [hotOf, scoredOf, passTwo])).2⟩

/-- C3 (code bug): the comment of the `scored` CTE promises a neutral rank of
0.5 for NULL feature values, but `CUME_DIST` never returns NULL: NULL values
sort last under the default ascending order, so an undefined segment receives
rank 1.0 and the `COALESCE(..., 0.5)` branch is dead.  Evaluated at a
two-segment pass where one segment has an undefined `rate_ratio`. -/
theorem undefined_feature_rank_is_one_not_half :
    segUndef.rate_ratio = none ∧
    (scoreRow passTwo segUndef).pct_ratio = 1 ∧
    ¬ (scoreRow passTwo segUndef).pct_ratio = 1 / 2 := by
  have h0 : segUndef.rate_ratio = none := by
    norm_num [segUndef, rateRatio]
  have h1 : (scoreRow passTwo segUndef).pct_ratio = 1 := by
    norm_num [scoreRow, sqlCoalesce, cumeDistOver, cumeDist, passTwo, segUndef, segDef,
      pgLe, rateRatio, List.countP_cons, List.countP_nil]
  exact ⟨h0, h1, by rw [h1]; norm_num⟩

/-- C7 counterexample: the claim says the segment holding the maximum defined
value of a feature receives rank exactly 1.0; in a pass containing a segment
with an undefined `rate_ratio`, the maximum defined rate ratio receives rank
1/2, because the undefined row sorts after it and still counts in the window
size. -/
theorem max_defined_value_rank_not_one :
    segDef.rate_ratio = some (73 / 24) ∧
    (∀ g ∈ passTwo, ∀ b, g.rate_ratio = some b → b ≤ 73 / 24) ∧
    (scoreRow passTwo segDef).pct_ratio = 1 / 2 ∧
    ¬ (scoreRow passTwo segDef).pct_ratio = 1 := by
  have ha : segDef.rate_ratio = some (73 / 24) := by
    norm_num [segDef, rateRatio]
  have hmax : ∀ g ∈ passTwo, ∀ b, g.rate_ratio = some b → b ≤ 73 / 24 := by
    intro g hg b hbg
    simp only [passTwo, List.mem_cons, List.not_mem_nil, or_false] at hg
    rcases hg with hg | hg
    · rw [hg] at hbg
      norm_num [segUndef, rateRatio] at hbg
      exact Option.noConfusion hbg
    · rw [hg] at hbg
      have hba := ha.symm.trans hbg
      rw [Option.some_inj] at hba
      rw [← hba]
  have hval : (scoreRow passTwo segDef).pct_ratio = 1 / 2 := by
    norm_num [scoreRow, sqlCoalesce, cumeDistOver, cumeDist, passTwo, segUndef, segDef,
      pgLe, rateRatio, List.countP_cons, List.countP_nil]
  exact ⟨ha, hmax, hval, by rw [hval]; norm_num⟩

/-- C7 (amended): for a segment with a defined feature value, the percentile
rank equals the fraction, among all scored segments (undefined rows included
in the denominator), of segments whose value is defined and at most this
segment's value; the maximum defined value receives rank exactly 1.0 provided
every segment's value is defined; the minimum defined value receives the
fraction of ties at the minimum.  Stated for the `rate_ratio` rank; the other
two ranks are the same `cumeDist` applied to their feature column. -/
theorem percentile_rank_cdf_max_min (fs : List Features) (f : Features)
    (hf : f ∈ fs) (a : ℚ) (ha : f.rate_ratio = some a) :
    (scoreRow fs f).pct_ratio =
      ((fs.countP fun g =>
          match g.rate_ratio with
          | some b => decide (b ≤ a)
          | none => false : ℕ) : ℚ) / ((fs.length : ℕ) : ℚ) ∧
    ((∀ g ∈ fs, g.rate_ratio.isSome) →
      (∀ g ∈ fs, ∀ b, g.rate_ratio = some b → b ≤ a) →
      (scoreRow fs f).pct_ratio = 1) ∧
    ((∀ g ∈ fs, ∀ b, g.rate_ratio = some b → a ≤ b) →
      (scoreRow fs f).pct_ratio =
        ((fs.countP fun g => decide (g.rate_ratio = some a) : ℕ) : ℚ) /
          ((fs.length : ℕ) : ℚ)) := by
  have hrow : (scoreRow fs f).pct_ratio =
      cumeDist (fs.map Features.rate_ratio) f.rate_ratio := rfl
  have hlen : ((fs.map Features.rate_ratio).length : ℚ) = (fs.length : ℚ) := by
    rw [List.length_map]
  have hne : fs ≠ [] := List.ne_nil_of_mem hf
  have hlenpos : (0 : ℚ) < (fs.length : ℕ) := by
    have := List.length_pos.mpr hne
    exact_mod_cast this
  refine ⟨?_, ?_, ?_⟩
  · rw [hrow, ha]
    unfold cumeDist
    rw [List.countP_map, List.length_map]
    congr 1
    norm_cast
    apply List.countP_congr
    intro g hg
    cases hrr : g.rate_ratio <;> simp [Function.comp, pgLe, hrr]
  · intro hdef hmax
    rw [hrow, ha]
    unfold cumeDist
    rw [List.countP_map, List.length_map]
    have hall : fs.countP ((fun y => pgLe y (some a)) ∘ Features.rate_ratio) = fs.length := by
      rw [List.countP_eq_length]
      intro g hg
      obtain ⟨b, hb⟩ := Option.isSome_iff_exists.mp (hdef g hg)
      simp [Function.comp, pgLe, hb, hmax g hg b hb]
    rw [hall]
    exact div_self (ne_of_gt hlenpos)
  · intro hmin
    rw [hrow, ha]
    unfold cumeDist
    rw [List.countP_map, List.length_map]
    congr 1
    norm_cast
    apply List.countP_congr
    intro g hg
    cases hrr : g.rate_ratio with
    | none => simp [Function.comp, pgLe, hrr]
    | some b =>
        simp only [Function.comp, pgLe, hrr, decide_eq_true_eq, Option.some_inj]
        constructor
        · intro hba
          exact le_antisymm hba (hmin g hg b hrr)
        · intro hba
          rw [hba]

/-- Witness for C7 at a singleton pass whose only segment has every feature
defined: its rank is the full fraction 1/1 = 1, and it is both the maximum
and the tie-set at the minimum. -/
theorem percentile_rank_cdf_max_min_witness :
    segDef ∈ [segDef] ∧ segDef.rate_ratio = some (73 / 24) ∧
    (scoreRow [segDef] segDef).pct_ratio =
      (([segDef].countP fun g =>
          match g.rate_ratio with
          | some b => decide (b ≤ (73 : ℚ) / 24)
          | none => false : ℕ) : ℚ) / ((([segDef] : List Features).length : ℕ) : ℚ) ∧
    (scoreRow [segDef] segDef).pct_ratio = 1 :=
  ⟨List.mem_singleton_self segDef, by norm_num [segDef, rateRatio],
   (percentile_rank_cdf_max_min [segDef] segDef (List.mem_singleton_self segDef)
      (73 / 24) (by norm_num [segDef, rateRatio])).1,
   (percentile_rank_cdf_max_min [segDef] segDef (List.mem_singleton_self segDef)
      (73 / 24) (by norm_num [segDef, rateRatio])).2.1
     (by intro g hg
         rw [List.mem_singleton] at hg
         rw [hg]
         norm_num [segDef, rateRatio])
     (by intro g hg b hbg
         rw [List.mem_singleton] at hg
         rw [hg] at hbg
         norm_num [segDef, rateRatio] at hbg
         rw [hbg])⟩

/-- C5 (code bug): the loop comments promise that only `tbl_live` is refreshed
every tick and that `tbl_next_24h` / `tbl_next_2h` are refreshed every 4th
tick, but both counter branches call `update_hotness()` and
`update_price_delta()`, which iterate over all of `SNAP_TABLES`: at
counter = 1 (not a 4th tick) the wide views are updated anyway, and at
counter = 4 every table is updated twice. -/
theorem offcycle_tick_updates_all_views :
    1 % 4 ≠ 0 ∧
    "tbl_next_24h" ∈ tickUpdatedTables 1 ∧
    "tbl_next_2h" ∈ tickUpdatedTables 1 ∧
    (tickUpdatedTables 4).count "tbl_live" = 4 := by
  decide

/-- C6 counterexample: a lot starting one hour from now satisfies both the
next-2h and the next-24h membership predicates, a lot starting exactly now
with an open status satisfies all three, and two lots with identical times but
different statuses differ in live membership — so membership is neither
exclusive nor determined solely by the start time. -/
theorem view_membership_overlap :
    inNext2h 0 1 = true ∧ inNext24h 0 1 = true ∧
    inLive 0 0 "RUN" = true ∧ inNext2h 0 0 = true ∧ inNext24h 0 0 = true ∧
    inLive 0 0 "SOLD" = false := by
  refine ⟨by norm_num [inNext2h], by norm_num [inNext24h], ?_,
    by norm_num [inNext2h], by norm_num [inNext24h], ?_⟩
  · simp only [inLive, Bool.and_eq_true, Bool.not_eq_eq_eq_not, Bool.not_true,
      Bool.or_eq_false_iff]
    refine ⟨by norm_num, by decide, by decide⟩
  · simp only [inLive, Bool.and_eq_false_iff]
    right
    decide

/-- C6 (amended): the next-2h window is contained in the next-24h window, so a
lot starting within the next 2 hours belongs to both upcoming views; the live
predicate can overlap the upcoming ones only at a start time exactly equal to
`now`; each membership test is a pure function of the start time, the status
and the current time. -/
theorem view_membership_amended (now dt : ℚ) (status : String) :
    (inNext2h now dt = true → inNext24h now dt = true) ∧
    (inLive now dt status = true → inNext2h now dt = true → dt = now) := by
  constructor
  · intro h
    simp only [inNext2h, Bool.and_eq_true, decide_eq_true_eq] at h
    simp only [inNext24h, Bool.and_eq_true, decide_eq_true_eq]
    exact ⟨h.1, by linarith [h.2]⟩
  · intro hl h2
    simp only [inLive, Bool.and_eq_true, decide_eq_true_eq] at hl
    simp only [inNext2h, Bool.and_eq_true, decide_eq_true_eq] at h2
    linarith [hl.1, h2.1]

/-- Witness for C6 (amended) at `now = 0`, a lot starting at hour 1 and an
open status. -/
theorem view_membership_amended_witness :
    inNext2h 0 1 = true ∧ inNext24h 0 1 = true :=
  ⟨by norm_num [inNext2h], (view_membership_amended 0 1 "RUN").1 (by norm_num [inNext2h])⟩

/-- C9 counterexample: with the `tbl_next_24h` update raising, the tick body
at counter 1 completes no table update at all — the failure is not isolated to
one view, nothing records it, and the loop terminates after that tick instead
of retrying (1 tick survives out of 3 requested, loop flag false). -/
theorem view_failure_aborts_tick_and_loop :
    tickBody (fun t => t == "tbl_next_24h") 1 = ([], false) ∧
    runTicks (fun t => t == "tbl_next_24h") 0 3 = ([[]], false) := by
  decide

/-- C9 (amended): `run_loop` has no exception handling, so whenever the
`tbl_next_24h` statement raises, the whole tick body aborts with no table
updated — the other views' passes do not run — and the loop terminates at that
tick no matter how many ticks remain. -/
theorem failure_propagates_and_halts (failsOn : String → Bool) (c k : Nat)
    (hfail : failsOn "tbl_next_24h" = true) :
    tickBody failsOn (c + 1) = ([], false) ∧
    runTicks failsOn c (k + 1) = ([([] : List String)], false) := by
  have hbody : tickBody failsOn (c + 1) = ([], false) := by
    simp [tickBody, passPair, seqAbort, hotnessUpdateTables, SNAP_TABLES, runSeq, hfail,
      Nat.mod_one]
  refine ⟨hbody, ?_⟩
  simp [runTicks, hbody]

/-- Witness for C9 (amended): the failing-table predicate hitting
`tbl_next_24h`, starting counter 0, three ticks requested. -/
theorem failure_propagates_and_halts_witness :
    ((fun t => t == "tbl_next_24h") "tbl_next_24h" = true) ∧
    (tickBody (fun t => t == "tbl_next_24h") (0 + 1) = ([], false) ∧
     runTicks (fun t => t == "tbl_next_24h") 0 (2 + 1) = ([([] : List String)], false)) :=
  ⟨by decide, failure_propagates_and_halts (fun t => t == "tbl_next_24h") 0 2 (by decide)⟩

/-! ## Comp matcher lemmas -/

theorem insertSorted_length (x : ℚ) (l : List ℚ) :
    (insertSorted x l).length = l.length + 1 := by
  induction l with
  | nil => rfl
  | cons y ys ih =>
      by_cases h : x ≤ y <;> simp [insertSorted, h, ih]

theorem sortQ_length (l : List ℚ) : (sortQ l).length = l.length := by
  induction l with
  | nil => rfl
  | cons y ys ih =>
      show (insertSorted y (sortQ ys)).length = ys.length + 1
      rw [insertSorted_length, ih]

theorem percentileDisc50_isSome (xs : List ℚ) (h : xs ≠ []) :
    (percentileDisc50 xs).isSome = true := by
  unfold percentileDisc50
  have hlen : (sortQ xs).length = xs.length := sortQ_length xs
  have hne : xs.length ≠ 0 := by
    simpa [List.length_eq_zero] using h
  simp [hlen, hne]

theorem compsA_row (norm : String → String) (hist : List SaleRecord) (t : TargetLot)
    (h : hist.filter (tierAMatch norm t) ≠ []) :
    compsA norm hist t =
      some { fair_value :=
               percentileDisc50 ((hist.filter (tierAMatch norm t)).filterMap SaleRecord.sale_price),
             comp_count := (hist.filter (tierAMatch norm t)).length } := by
  unfold compsA compsRow
  simp [h]

theorem compsB_row (norm : String → String) (hist : List SaleRecord) (t : TargetLot)
    (h : hist.filter (tierBMatch norm t) ≠ []) :
    compsB norm hist t =
      some { fair_value :=
               percentileDisc50 ((hist.filter (tierBMatch norm t)).filterMap SaleRecord.sale_price),
             comp_count := (hist.filter (tierBMatch norm t)).length } := by
  unfold compsB compsRow
  simp [h]

theorem tierA_price_present (norm : String → String) (t : TargetLot) (s : SaleRecord)
    (h : tierAMatch norm t s = true) : s.sale_price.isSome = true := by
  unfold tierAMatch at h
  simp only [Bool.and_eq_true] at h
  exact h.1.2

/-- Tier-A matches have a non-null sale price, so a nonempty tier-A comp set
yields a non-null discrete median. -/
theorem tierA_fair_value_isSome (norm : String → String) (hist : List SaleRecord)
    (t : TargetLot) (h : hist.filter (tierAMatch norm t) ≠ []) :
    (percentileDisc50
      ((hist.filter (tierAMatch norm t)).filterMap SaleRecord.sale_price)).isSome = true := by
  obtain ⟨s, hs⟩ := List.exists_mem_of_ne_nil _ h
  have hmem := List.mem_filter.mp hs
  obtain ⟨p, hp⟩ := Option.isSome_iff_exists.mp (tierA_price_present norm t s hmem.2)
  apply percentileDisc50_isSome
  apply List.ne_nil_of_mem (a := p)
  exact List.mem_filterMap.mpr ⟨s, hs, hp⟩

/-! ## Claim theorems (continued) -/

/-- C2: for every lot, a nonempty tier-A comp set forces the picked
`fair_value` to be tier A's discrete median and `comp_count` to be tier A's
count (and the fair value is non-null); with tier A empty and tier B nonempty,
tier B's median and count are used; with both empty the pick is
`(null, 0)`. -/
theorem tier_a_preferred (norm : String → String) (hist : List SaleRecord) (t : TargetLot) :
    (hist.filter (tierAMatch norm t) ≠ [] →
      pickLot norm hist t =
        (percentileDisc50 ((hist.filter (tierAMatch norm t)).filterMap SaleRecord.sale_price),
         (hist.filter (tierAMatch norm t)).length) ∧
      (pickLot norm hist t).1.isSome = true) ∧
    (hist.filter (tierAMatch norm t) = [] → hist.filter (tierBMatch norm t) ≠ [] →
      pickLot norm hist t =
        (percentileDisc50 ((hist.filter (tierBMatch norm t)).filterMap SaleRecord.sale_price),
         (hist.filter (tierBMatch norm t)).length)) ∧
    (hist.filter (tierAMatch norm t) = [] → hist.filter (tierBMatch norm t) = [] →
      pickLot norm hist t = (none, 0)) := by
  refine ⟨?_, ?_, ?_⟩
  · intro hA
    obtain ⟨p, hp⟩ :=
      Option.isSome_iff_exists.mp (tierA_fair_value_isSome norm hist t hA)
    have hpl : pickLot norm hist t =
        (percentileDisc50 ((hist.filter (tierAMatch norm t)).filterMap SaleRecord.sale_price),
         (hist.filter (tierAMatch norm t)).length) := by
      unfold pickLot pickRow
      rw [compsA_row norm hist t hA]
      simp [hp]
    refine ⟨hpl, ?_⟩
    rw [hpl, hp]
    rfl
  · intro hA hB
    unfold pickLot pickRow
    have hAnone : compsA norm hist t = none := by
      unfold compsA compsRow
      simp [hA]
    rw [hAnone, compsB_row norm hist t hB]
    simp
  · intro hA hB
    unfold pickLot pickRow
    have hAnone : compsA norm hist t = none := by
      unfold compsA compsRow
      simp [hA]
    have hBnone : compsB norm hist t = none := by
      unfold compsB compsRow
      simp [hB]
    rw [hAnone, hBnone]
    rfl

/-- Witness for C2: a history with one tight comp (price 12000) and one
wide-only comp (price 9000); the tight comp wins. -/
theorem tier_a_preferred_witness :
    histW.filter (tierAMatch normId lotW) ≠ [] ∧
    (pickLot normId histW lotW =
       (percentileDisc50 ((histW.filter (tierAMatch normId lotW)).filterMap SaleRecord.sale_price),
        (histW.filter (tierAMatch normId lotW)).length) ∧
     (pickLot normId histW lotW).1.isSome = true) := by
  have hA : histW.filter (tierAMatch normId lotW) = [saleTight] := by
    norm_num [histW, List.filter_cons, tierAMatch, normEq, yearWithin, titleOk, odoOk,
      normId, saleTight, saleWide, lotW]
  refine ⟨by rw [hA]; exact List.cons_ne_nil _ _, (tier_a_preferred normId histW lotW).1 ?_⟩
  rw [hA]
  exact List.cons_ne_nil _ _

/-- C4: `price_delta_pct` is null whenever `fair_value` is null or nonpositive,
and otherwise equals `100 * (latest_prebid - fair_value) / fair_value`
(propagating a null `latest_prebid`). -/
theorem price_delta_definedness (norm : String → String) (hist : List SaleRecord)
    (t : TargetLot) (v : ℚ) :
    ((updFor norm hist t).fair_value = none → (updFor norm hist t).price_delta_pct = none) ∧
    ((updFor norm hist t).fair_value = some v → v ≤ 0 →
      (updFor norm hist t).price_delta_pct = none) ∧
    ((updFor norm hist t).fair_value = some v → 0 < v →
      (updFor norm hist t).price_delta_pct =
        t.latest_prebid.map fun b => 100 * (b - v) / v) := by
  have hfv : (updFor norm hist t).fair_value = (pickLot norm hist t).1 := rfl
  have hpd : (updFor norm hist t).price_delta_pct =
      priceDeltaPct (pickLot norm hist t).1 t.latest_prebid := rfl
  refine ⟨?_, ?_, ?_⟩
  · intro h
    rw [hfv] at h
    rw [hpd, h]
    rfl
  · intro h hle
    rw [hfv] at h
    rw [hpd, h]
    show (if 0 < v then Option.map (fun b => 100 * (b - v) / v) t.latest_prebid else none) =
      none
    rw [if_neg (not_lt.mpr hle)]
  · intro h hpos
    rw [hfv] at h
    rw [hpd, h]
    show (if 0 < v then Option.map (fun b => 100 * (b - v) / v) t.latest_prebid else none) =
      Option.map (fun b => 100 * (b - v) / v) t.latest_prebid
    rw [if_pos hpos]

/-- Witness for C4: the picked fair value 12000 is positive, so the delta is
`100 * (13200 - 12000) / 12000`. -/
theorem price_delta_definedness_witness :
    (updFor normId histW lotW).fair_value = some 12000 ∧ (0 : ℚ) < 12000 ∧
    (updFor normId histW lotW).price_delta_pct =
      lotW.latest_prebid.map fun b => 100 * (b - 12000) / 12000 := by
  have hA : histW.filter (tierAMatch normId lotW) = [saleTight] := by
    norm_num [histW, List.filter_cons, tierAMatch, normEq, yearWithin, titleOk, odoOk,
      normId, saleTight, saleWide, lotW]
  have hfv : (updFor normId histW lotW).fair_value = some 12000 := by
    have h1 : (updFor normId histW lotW).fair_value = (pickLot normId histW lotW).1 := rfl
    have hp : percentileDisc50
        ((histW.filter (tierAMatch normId lotW)).filterMap SaleRecord.sale_price) =
        some 12000 := by
      rw [hA]
      rfl
    rw [h1]
    unfold pickLot
    rw [compsA_row normId histW lotW (by rw [hA]; exact List.cons_ne_nil _ _)]
    unfold pickRow
    simp [hp]
  exact ⟨hfv, by norm_num,
    (price_delta_definedness normId histW lotW 12000).2.2 hfv (by norm_num)⟩

/-- C8: every division site in feature computation is guarded — ticks spanning
zero elapsed time give an undefined velocity (`NULLIF` divisor), a segment
with no yearly baseline gives an undefined `rate_ratio` (CASE guard), and a
segment whose lots all have undefined velocity gives an undefined
`vel_median` (the ordered-set aggregate ignores NULLs and is NULL on empty
input). -/
theorem division_sites_guarded (ticks : List Tick) (c30 c12 : ℚ) (vels : List (Option ℚ))
    (hts : ∀ a ∈ ticks, ∀ b ∈ ticks, a.ts_utc = b.ts_utc)
    (hc : c12 ≤ 0) (hv : ∀ v ∈ vels, v = none) :
    velPerH ticks = none ∧ rateRatio c30 c12 = none ∧ velMedian vels = none := by
  refine ⟨?_, ?_, ?_⟩
  · cases ticks with
    | nil => rfl
    | cons t ts =>
        rcases hmaxP : ((t :: ts).map Tick.prebid).max? with _ | mP
        · simp [List.max?_eq_none_iff] at hmaxP
        rcases hminP : ((t :: ts).map Tick.prebid).min? with _ | nP
        · simp [List.min?_eq_none_iff] at hminP
        rcases hmaxT : ((t :: ts).map Tick.ts_utc).max? with _ | mT
        · simp [List.max?_eq_none_iff] at hmaxT
        rcases hminT : ((t :: ts).map Tick.ts_utc).min? with _ | nT
        · simp [List.min?_eq_none_iff] at hminT
        obtain ⟨a, haz, haT⟩ := List.mem_map.mp (List.max?_mem max_choice hmaxT)
        obtain ⟨b, hbz, hbT⟩ := List.mem_map.mp (List.min?_mem min_choice hminT)
        have heq : mT = nT := by
          rw [← haT, ← hbT]
          exact hts a haz b hbz
        unfold velPerH
        rw [hmaxP, hminP, hmaxT, hminT]
        simp [heq, sqlNullif]
  · unfold rateRatio
    rw [if_neg (not_lt.mpr hc)]
  · have hnil : vels.filterMap id = [] := by
      rw [List.filterMap_eq_nil_iff]
      exact hv
    unfold velMedian
    rw [hnil]
    rfl

/-- Witness for C8: two same-instant ticks, a zero yearly count, and a
segment with two undefined velocities. -/
theorem division_sites_guarded_witness :
    (∀ a ∈ [Tick.mk 0 10, Tick.mk 0 20], ∀ b ∈ [Tick.mk 0 10, Tick.mk 0 20],
      a.ts_utc = b.ts_utc) ∧
    (0 : ℚ) ≤ 0 ∧ (∀ v ∈ [(none : Option ℚ), none], v = none) ∧
    (velPerH [Tick.mk 0 10, Tick.mk 0 20] = none ∧ rateRatio 5 0 = none ∧
      velMedian [none, none] = none) :=
  ⟨by decide, le_refl 0, by decide,
   division_sites_guarded [Tick.mk 0 10, Tick.mk 0 20] 5 0 [none, none]
     (by decide) (le_refl 0) (by decide)⟩

/-- C10: the hotness UPDATE writes only `hotness_pct`, `hotness_last_updated`
and `hotness_components`, leaving the pricing columns and the
vehicle-descriptor columns unchanged; the price UPDATE writes only
`fair_value`, `comp_count`, `price_delta_pct` and `price_last_updated`,
leaving the hotness columns and the descriptors unchanged. -/
theorem analytics_updates_frame (tmp : List HotRow) (u : UpdRow) (t1 t2 : ℚ) (r : SnapRow) :
    ((applyHotnessUpdate tmp t1 r).fair_value = r.fair_value ∧
     (applyHotnessUpdate tmp t1 r).comp_count = r.comp_count ∧
     (applyHotnessUpdate tmp t1 r).price_delta_pct = r.price_delta_pct ∧
     (applyHotnessUpdate tmp t1 r).price_last_updated = r.price_last_updated ∧
     (applyHotnessUpdate tmp t1 r).lot_id = r.lot_id ∧
     (applyHotnessUpdate tmp t1 r).broker_id = r.broker_id ∧
     (applyHotnessUpdate tmp t1 r).make_norm = r.make_norm ∧
     (applyHotnessUpdate tmp t1 r).model_norm = r.model_norm ∧
     (applyHotnessUpdate tmp t1 r).year = r.year ∧
     (applyHotnessUpdate tmp t1 r).title_norm = r.title_norm ∧
     (applyHotnessUpdate tmp t1 r).odometer_miles = r.odometer_miles ∧
     (applyHotnessUpdate tmp t1 r).latest_prebid = r.latest_prebid) ∧
    ((applyPriceUpdate u t2 r).hotness_pct = r.hotness_pct ∧
     (applyPriceUpdate u t2 r).hotness_last_updated = r.hotness_last_updated ∧
     (applyPriceUpdate u t2 r).hotness_components = r.hotness_components ∧
     (applyPriceUpdate u t2 r).lot_id = r.lot_id ∧
     (applyPriceUpdate u t2 r).broker_id = r.broker_id ∧
     (applyPriceUpdate u t2 r).make_norm = r.make_norm ∧
     (applyPriceUpdate u t2 r).model_norm = r.model_norm ∧
     (applyPriceUpdate u t2 r).year = r.year ∧
     (applyPriceUpdate u t2 r).title_norm = r.title_norm ∧
     (applyPriceUpdate u t2 r).odometer_miles = r.odometer_miles ∧
     (applyPriceUpdate u t2 r).latest_prebid = r.latest_prebid) := by
  constructor
  · unfold applyHotnessUpdate
    cases tmp.find? fun h => segKeyMatches h r <;> simp
  · unfold applyPriceUpdate
    simp

end CarAuction
